import Mathlib

/-!
Verification development for the `hubot-urban-airship-connect` bot
(`src/hubot-urban-airship-connect.js`).

The bot manages a single mutable JSON configuration document (held by the
`objectstate` dependency), a field-selector set (`output`), and renders
incoming event records through a dot-path projection (`dotpather`).  We give
a shallow embedding: JSON values become an inductive `JSValue`, the document
mutation primitives of the state machine become pure functions returning the
new document together with the list of change notifications emitted and the
list of chat messages sent, and each command handler of the source becomes a
Lean function translated line by line from the handler's body.

JavaScript numbers are modelled as rationals; every numeric literal the
commands can produce is a finite decimal, and the comparisons performed on
them (against 0 and 1) have the same outcome over `Rat`.
-/

/-- JSON values as produced by `JSON.parse` and stored in the document.
Objects are insertion-ordered association lists, matching JS property
enumeration order for string keys. -/
inductive JSValue where
  | null : JSValue
  | bool : Bool → JSValue
  | num : Rat → JSValue
  | str : String → JSValue
  | arr : List JSValue → JSValue
  | obj : List (String × JSValue) → JSValue
deriving Inhabited

namespace JSValue

/-- Numeric value of a list of decimal digit characters (most significant
first), as `parseInt` computes it on an all-digit string. -/
def digitsVal (l : List Char) : Nat :=
  l.foldl (fun acc c => acc * 10 + (c.toNat - 48)) 0

/-- Association-list lookup: the value of the first pair whose key matches. -/
def assocGet (k : String) : List (String × JSValue) → Option JSValue
  | [] => none
  | (k2, v) :: rest => if k2 = k then some v else assocGet k rest

/-- Association-list update as a JS property assignment: an existing key
keeps its position, a new key is appended. -/
def assocSet (k : String) (v : JSValue) : List (String × JSValue) → List (String × JSValue)
  | [] => [(k, v)]
  | (k2, w) :: rest => if k2 = k then (k, v) :: rest else (k2, w) :: assocSet k v rest

/-- Resolve one path segment against a value: a key of an object, or a
decimal index of an array (as `dotpather` / `objectstate` address arrays).
Scalars have no children. -/
def segGet (seg : String) : JSValue → Option JSValue
  | .obj l => assocGet seg l
  | .arr l =>
      if seg ≠ "" ∧ seg.data.all Char.isDigit then
        l.get? (digitsVal seg.data)
      else none
  | _ => none

/-- Resolve a full (already split) dot path, `undefined` becoming `none`. -/
def pathGet : List String → JSValue → Option JSValue
  | [], v => some v
  | seg :: rest, v =>
      match segGet seg v with
      | some w => pathGet rest w
      | none => none

/-- Model of JS `delete` of the value at a path: returns the new document and whether
something was removed (the boolean `objectstate.remove` reports; it emits a
change notification only when this is true).  Deleting an index out of an
array is not exercised by any command (the last segment of every removed
path is a key of an object) and is modelled as a no-op. -/
def pathRemove : List String → JSValue → JSValue × Bool
  | [], v => (v, false)
  | [k], .obj l =>
      if (assocGet k l).isSome then
        (.obj (l.filter (fun p => p.1 ≠ k)), true)
      else (.obj l, false)
  | seg :: rest, .obj l =>
      match assocGet seg l with
      | none => (.obj l, false)
      | some w =>
          let r := pathRemove rest w
          (.obj (assocSet seg r.1 l), r.2)
  | seg :: rest, .arr l =>
      if seg ≠ "" ∧ seg.data.all Char.isDigit then
        match l.get? (digitsVal seg.data) with
        | some w =>
            let r := pathRemove rest w
            (.arr (l.set (digitsVal seg.data) r.1), r.2)
        | none => (.arr l, false)
      else (.arr l, false)
  | _ :: _, v => (v, false)

/-- Top-level property assignment on the document root (always an object in
`objectstate`; on a non-object the assignment is a silent no-op as in
non-strict JS). -/
def objSet (k : String) (v : JSValue) : JSValue → JSValue
  | .obj l => .obj (assocSet k v l)
  | x => x

/-- The `objectstate.set` primitive along a path: replaces the value at the path, creating
intermediate object containers as needed (spec, section 4.1).  Assignment
through an existing array index updates that element; other array cases and
assignment through a scalar are not exercised by any command and are no-ops. -/
def pathSet : List String → JSValue → JSValue → JSValue
  | [], v, _ => v
  | seg :: rest, v, .obj l =>
      let child := match assocGet seg l with
        | some w => w
        | none => .obj []
      .obj (assocSet seg (pathSet rest v child) l)
  | seg :: rest, v, .arr l =>
      if seg ≠ "" ∧ seg.data.all Char.isDigit then
        match l.get? (digitsVal seg.data) with
        | some w => .arr (l.set (digitsVal seg.data) (pathSet rest v w))
        | none => .arr l
      else .arr l
  | _ :: _, _, x => x

/-- Keys of an object as `Object.keys` lists them; `[]` for the non-object shapes that never
reach it in the claims. -/
def keysOf : JSValue → List String
  | .obj l => l.map Prod.fst
  | _ => []

/-- Whether a top-level key is present on the document. -/
def hasKey (k : String) (v : JSValue) : Bool :=
  match v with
  | .obj l => (assocGet k l).isSome
  | _ => false

end JSValue

/-! ### Constants of the source (lines 36-73) -/

/-- Constant `FILTER_KEYS` (source lines 36-38). -/
def FILTER_KEYS : List String :=
  ["device_types", "notifications", "devices", "types", "latency"]

/-- Constant `EVENT_TYPES` (source lines 39-52), in the literal's insertion order. -/
def EVENT_TYPES : List String :=
  ["PUSH_BODY", "CUSTOM", "TAG_CHANGE", "FIRST_OPEN", "UNINSTALL",
   "RICH_DELIVERY", "RICH_READ", "RICH_DELETE", "IN_APP_MESSAGE_EXPIRATION",
   "IN_APP_MESSAGE_RESOLUTION", "IN_APP_MESSAGE_DISPLAY", "SEND"]

/-- Constant `DEVICE_TYPES` (source line 53). -/
def DEVICE_TYPES : List String := ["ios", "android", "amazon"]

/-- Constant `FILTERS` (source lines 62-65): the allowed-value domain attached to the
two filter keys that have one. -/
def FILTERS_allowed (filterType : String) : Option (List String) :=
  if filterType = "device_types" then some DEVICE_TYPES
  else if filterType = "types" then some EVENT_TYPES
  else none

/-- Constant `DEFAULT_STATE` (source lines 67-73). -/
def DEFAULT_STATE : JSValue :=
  .obj [
    ("filters", .arr [.obj [
      ("device_types", .arr (DEVICE_TYPES.map JSValue.str)),
      ("types", .arr (EVENT_TYPES.map JSValue.str))]]),
    ("start", .str "LATEST")]

/-- Constant `DEFAULT_OUTPUT` (source lines 54-61), in insertion order. -/
def DEFAULT_OUTPUT : List String :=
  ["device.named_user_id", "device.ios_channel", "device.android_channel",
   "device.amazon_channel", "type", "body"]

/-! ### Rendering (`JSON.stringify`, template-literal coercion) -/

/-- Decimal rendering of a rational, used for JS number-to-string coercion.
All numbers the commands produce are finite decimals, for which this agrees
with JS; the fraction is cut off after `fuel` digits otherwise. -/
def fracDigits (den : Nat) : Nat → Nat → String
  | _, 0 => ""
  | r, fuel + 1 =>
      if r = 0 then ""
      else
        let r10 := r * 10
        toString (r10 / den) ++ fracDigits den (r10 % den) fuel

/-- JS number-to-string for the finite decimals in play. -/
def ratToDec (q : Rat) : String :=
  let sign := if q < 0 then "-" else ""
  let a := q.num.natAbs
  let d := q.den
  sign ++ toString (a / d) ++
    (if a % d = 0 then "" else "." ++ fracDigits d (a % d) 20)

/-- String escaping as `JSON.stringify` performs on quotes and backslashes
(control-character escapes are omitted: no claim exercises them). -/
def jsEscape (s : String) : String :=
  s.data.foldr
    (fun c acc =>
      if c = '"' then "\\\"" ++ acc
      else if c = '\\' then "\\\\" ++ acc
      else String.mk [c] ++ acc) ""

mutual

/-- The `JSON.stringify` serialization of a JSON value (no indentation argument). -/
def jsonStringify : JSValue → String
  | .null => "null"
  | .bool true => "true"
  | .bool false => "false"
  | .num q => ratToDec q
  | .str s => "\"" ++ jsEscape s ++ "\""
  | .arr l => "[" ++ jsonStringifyArr l ++ "]"
  | .obj l => "\x7b" ++ jsonStringifyObj l ++ "\x7d"

/-- Comma-joined serialization of array elements. -/
def jsonStringifyArr : List JSValue → String
  | [] => ""
  | [v] => jsonStringify v
  | v :: rest => jsonStringify v ++ "," ++ jsonStringifyArr rest

/-- Comma-joined serialization of object entries. -/
def jsonStringifyObj : List (String × JSValue) → String
  | [] => ""
  | [(k, v)] => "\"" ++ jsEscape k ++ "\":" ++ jsonStringify v
  | (k, v) :: rest =>
      "\"" ++ jsEscape k ++ "\":" ++ jsonStringify v ++ "," ++ jsonStringifyObj rest

end

/-- The test `typeof value === 'object'` — true for objects, arrays and `null`. -/
def isCompositeJS : JSValue → Bool
  | .obj _ => true
  | .arr _ => true
  | .null => true
  | _ => false

/-- Template-literal coercion of a non-composite value, as in the
interpolation on source line 280. -/
def scalarString : JSValue → String
  | .str s => s
  | .num q => ratToDec q
  | .bool true => "true"
  | .bool false => "false"
  | v => jsonStringify v

/-! ### Path lookup (`dotpather`) and the projection engine -/

/-- Split a character list at every dot, as `'a.b'.split('.')` does
(`"" ↦ [""]`, empty segments preserved). -/
def splitOnDot : List Char → List (List Char)
  | [] => [[]]
  | c :: rest =>
      match splitOnDot rest with
      | [] => [[c]]
      | g :: gs => if c = '.' then [] :: g :: gs else (c :: g) :: gs

/-- The `lookup(id)(data)` function from the `dotpather` dependency: split the path on
dots and walk the record, `undefined` becoming `none`. -/
def dotLookup (id : String) (data : JSValue) : Option JSValue :=
  JSValue.pathGet ((splitOnDot id.data).map (fun l => String.mk l)) data

/-- The rendering of one resolved value inside `postToChannel` (source lines
274-280): composite values go through `JSON.stringify`, scalars through the
template literal. -/
def renderValue (v : JSValue) : String :=
  if isCompositeJS v then jsonStringify v else scalarString v

/-- The body of the `.map` callback of `postToChannel` (source lines
273-281): look the path up again, stringify composite values, and return
the `id: value` pair.  The `none` fallback is unreachable after the
`.filter`. -/
def renderPath (data : JSValue) (id : String) : String :=
  let value :=
    match dotLookup id data with
    | some v => v
    | none => .null
  id ++ ": " ++ renderValue value

/-- The `postToChannel(data)` function (source lines 270-285): filter the output paths to
those that resolve in the record, render each as a `path: value` pair, join
with commas, and broadcast the resulting single message. Returns the list of
broadcast messages (always exactly one). -/
def postToChannel (output : List String) (data : JSValue) : List String :=
  let message :=
    String.intercalate ", "
      ((output.filter (fun id => (dotLookup id data).isSome)).map
        (renderPath data))
  [message]

/-! ### The command pattern for `!set subset sample` -/

/-- Longest prefix of decimal digits of a character list, with the rest. -/
def takeDigits : List Char → List Char × List Char
  | [] => ([], [])
  | c :: rest =>
      if c.isDigit then
        let r := takeDigits rest
        (c :: r.1, r.2)
      else ([], c :: rest)

/-- The capture of the group `(\d*(\.\d+)?)` of the pattern on source line
157, matched greedily at the start of the argument text.  Both parts are
optional, so the capture can be empty (e.g. on the argument `-0.01`). -/
def sampleCapture (s : String) : String :=
  let r := takeDigits s.data
  match r.2 with
  | '.' :: rest2 =>
      let f := takeDigits rest2
      if f.1 ≠ [] then String.mk (r.1 ++ '.' :: f.1) else String.mk r.1
  | _ => String.mk r.1

/-- Conversion `Number(s)` for strings of the capture's shape `\d*(\.\d+)?`: the digit
prefix is the integer part, a fraction may follow a dot, and
`Number("") = 0`. -/
def jsNumber (s : String) : Rat :=
  let r := takeDigits s.data
  match r.2 with
  | '.' :: fp =>
      (JSValue.digitsVal r.1 : Rat) +
        (JSValue.digitsVal fp : Rat) / ((10 : Rat) ^ fp.length)
  | _ => (JSValue.digitsVal r.1 : Rat)

/-! ### Command handlers

Each handler returns the new document, the list of change-notification
snapshots emitted by the state machine (`objectstate`), and the list of chat
messages sent with `res.send`.  The `objectstate` emission discipline is
modelled from the spec, section 4.1, since that dependency is not part of
this repository's sources: `set` emits one notification, `remove` emits one
only when something was removed, `write` emits one, and `wait` (the
transaction primitive) suppresses the intermediate notifications and emits
exactly one snapshot after all steps complete. -/

/-- Output of a command handler: final document, emitted change
notifications (full snapshots, in order), chat messages sent. -/
structure HandlerOut where
  doc : JSValue
  notes : List JSValue
  msgs : List String
deriving Inhabited

/-- The `!set start <token>` handler (source lines 143-148): one transaction
removing `resume_offset` and setting `start` to the captured word. -/
def setStartCmd (tok : String) (doc : JSValue) : HandlerOut :=
  let d1 := (JSValue.pathRemove ["resume_offset"] doc).1
  let d2 := JSValue.objSet "start" (.str tok) d1
  ⟨d2, [d2], []⟩

/-- The `!set resume_offset <digits>` handler (source lines 150-155): one
transaction removing `start` and setting `resume_offset` to `res.match[1]`,
which is the captured digit STRING (no numeric conversion in the source). -/
def setResumeOffsetCmd (s : String) (doc : JSValue) : HandlerOut :=
  let d1 := (JSValue.pathRemove ["start"] doc).1
  let d2 := JSValue.objSet "resume_offset" (.str s) d1
  ⟨d2, [d2], []⟩

/-- The Sample subset policy object built on source line 165. -/
def samplePolicy (p : Rat) : JSValue :=
  .obj [("type", .str "SAMPLE"), ("proportion", .num p)]

/-- The `!set subset sample <arg>` handler (source lines 157-166), including the
capture of the command pattern: `proportion` is `Number` of the capture, the
guard rejects when it is below 0 or above 1, otherwise `subset` is set. -/
def setSubsetSampleCmd (argText : String) (doc : JSValue) : HandlerOut :=
  let proportion := jsNumber (sampleCapture argText)
  if proportion < 0 ∨ proportion > 1 then
    ⟨doc, [], ["😞 invalid proportion value: " ++ ratToDec proportion]⟩
  else
    let d2 := JSValue.objSet "subset" (samplePolicy proportion) doc
    ⟨d2, [d2], []⟩

/-- The Partition subset policy object built on source line 182. -/
def partitionPolicy (count selection : Nat) : JSValue :=
  .obj [("type", .str "PARTITION"),
        ("count", .num (count : Rat)), ("selection", .num (selection : Rat))]

/-- The `!set subset partition <count> <selection>` handler (source lines
168-183).  The pattern's groups are `(\d+) (\d+)`, so `parseInt` always
yields the naturals the numerals denote. -/
def setSubsetPartitionCmd (count selection : Nat) (doc : JSValue) : HandlerOut :=
  if count < 1 then
    ⟨doc, [], ["😞 count cannot be less than 1"]⟩
  else if selection > count then
    ⟨doc, [], ["😞 selection cannot be larger than count"]⟩
  else
    let d2 := JSValue.objSet "subset" (partitionPolicy count selection) doc
    ⟨d2, [d2], []⟩

/-- The `!set current <payload>` handler (source lines 125-136), parameterized
by the outcome of `JSON.parse` on the payload (the parser itself is the JS
runtime's): a parse error is reported with the parser's message and nothing
else happens; a parsed value replaces the whole document via `state.write`,
with no validation, emitting one notification. -/
def setCurrentCmd (parsed : Except String JSValue) (doc : JSValue) : HandlerOut :=
  match parsed with
  | .error e => ⟨doc, [], ["😞 error parsing JSON: " ++ e]⟩
  | .ok data => ⟨data, [data], []⟩

/-- The `!filters clear <word>` handler (source lines 189-208), translated
guard-for-guard.  Note the source's first guard rejects when the word IS one
of `FILTER_KEYS`.  In the rejection branch the source computes
`Object.keys(state.get('filters.0'))`; when `filters.0` is absent that is
`Object.keys(undefined)`, which throws a `TypeError` — modelled as the
`Except.error` case. -/
def filtersClearCmd (filterType : String) (doc : JSValue) :
    Except String HandlerOut :=
  if FILTER_KEYS.contains filterType then
    .ok ⟨doc, [], ["😞 invalid filter type " ++ filterType]⟩
  else
    let r := JSValue.pathRemove ["filters", "0", filterType] doc
    if r.2 then .ok ⟨r.1, [r.1], []⟩
    else
      match JSValue.pathGet ["filters", "0"] r.1 with
      | none => .error "TypeError: Cannot convert undefined or null to object"
      | some v =>
          let available :=
            String.intercalate ", "
              ((JSValue.keysOf v).filter (fun key => FILTER_KEYS.contains key))
          .ok ⟨r.1, [],
            ["😞 no filters defined for " ++ filterType ++
             ". available filters: " ++ available]⟩

/-- The test `currentFilters.indexOf(filter) !== -1` for a string needle: only
string elements compare strictly equal to it. -/
def hasStr (l : List JSValue) (s : String) : Bool :=
  l.any (fun v => match v with | .str t => t = s | _ => false)

/-- The value at `filters.0.<filterType>` resolved as the handler's `currentFilters`
(source line 228): `state.get(filterKeypath) || []`.  The stored value is
always an array when present; a present non-array never occurs on the
claims' documents and is treated as `[]`. -/
def currentFiltersOf (filterType : String) (doc : JSValue) : List JSValue :=
  match JSValue.pathGet ["filters", "0", filterType] doc with
  | some (.arr l) => l
  | _ => []

/-- The `!filters add/remove <key> <value>` handler (source lines 210-245).
`op` is the first capture, `"add"` or `"remove"`.  For `set` on the add /
remove success branches the keypath `filters.0.<key>` is written with the
new array; intermediate containers exist on every document whose
`currentFilters` was found, and the claims only touch the rejection
branches, where no write happens. -/
def filtersAddRemoveCmd (op filterType filter : String) (doc : JSValue) :
    HandlerOut :=
  if (FILTERS_allowed filterType).isNone then
    ⟨doc, [], ["😞 invalid filter type " ++ filterType]⟩
  else
    let allowed := (FILTERS_allowed filterType).getD []
    if ¬ allowed.contains filter then
      ⟨doc, [], ["😞 invalid " ++ filterType ++ ": " ++ filter]⟩
    else
      let currentFilters := currentFiltersOf filterType doc
      if op = "add" then
        if hasStr currentFilters filter then
          ⟨doc, [], ["😞 " ++ filterType ++ " filter already includes " ++ filter]⟩
        else
          let d2 := JSValue.pathSet ["filters", "0", filterType]
            (.arr (currentFilters ++ [.str filter])) doc
          ⟨d2, [d2], []⟩
      else if op = "remove" then
        if ¬ hasStr currentFilters filter then
          ⟨doc, [], ["😞 " ++ filterType ++ " filter does not include " ++ filter]⟩
        else
          let kept := currentFilters.filter
            (fun v => match v with | .str t => t ≠ filter | _ => true)
          let d2 := JSValue.pathSet ["filters", "0", filterType] (.arr kept) doc
          ⟨d2, [d2], []⟩
      else ⟨doc, [], []⟩

/-! ### Sequences of `!set start` / `!set resume_offset` commands -/

/-- A command of the mutual-exclusion claim: either `!set start <token>` or
`!set resume_offset <digits>` (the captures are strings). -/
inductive SRCmd where
  | setStart (tok : String) : SRCmd
  | setResume (digits : String) : SRCmd

/-- Run one start/resume command on the document. -/
def applySRCmd : SRCmd → JSValue → HandlerOut
  | .setStart tok, doc => setStartCmd tok doc
  | .setResume s, doc => setResumeOffsetCmd s doc

/-- Run a sequence of start/resume commands from a document, collecting the
final document, all emitted change notifications in order, and, for the
invariant, the document after each command. -/
def applySRCmds : List SRCmd → JSValue → JSValue × List JSValue × List JSValue
  | [], doc => (doc, [], [])
  | c :: cs, doc =>
      let o := applySRCmd c doc
      let r := applySRCmds cs o.doc
      (r.1, o.notes ++ r.2.1, o.doc :: r.2.2)

/-- The mutual-exclusion invariant: exactly one of `start` and
`resume_offset` is a present top-level key. -/
def exactlyOneStartResume (doc : JSValue) : Bool :=
  JSValue.hasKey "start" doc ≠ JSValue.hasKey "resume_offset" doc

/-! ### Lemmas about the association-list primitives -/

theorem assocGet_filterNe (k : String) (l : List (String × JSValue)) :
    JSValue.assocGet k (l.filter (fun p => p.1 ≠ k)) = none := by
  induction l with
  | nil => rfl
  | cons a t ih =>
      by_cases hak : a.1 = k
      · simpa [List.filter, hak] using ih
      · simpa [List.filter, hak, JSValue.assocGet] using ih

theorem assocGet_assocSet_self (k : String) (v : JSValue)
    (l : List (String × JSValue)) :
    JSValue.assocGet k (JSValue.assocSet k v l) = some v := by
  induction l with
  | nil => simp [JSValue.assocSet, JSValue.assocGet]
  | cons a t ih =>
      by_cases hak : a.1 = k
      · simp [JSValue.assocSet, hak, JSValue.assocGet]
      · simpa [JSValue.assocSet, hak, JSValue.assocGet] using ih

theorem assocGet_assocSet_ne (k k2 : String) (hne : k2 ≠ k) (v : JSValue)
    (l : List (String × JSValue)) :
    JSValue.assocGet k (JSValue.assocSet k2 v l) = JSValue.assocGet k l := by
  induction l with
  | nil => simp [JSValue.assocSet, JSValue.assocGet, hne]
  | cons a t ih =>
      by_cases hak : a.1 = k2
      · simp [JSValue.assocSet, hak, JSValue.assocGet, hne, Ne.symm hne]
      · simp only [JSValue.assocSet, hak, if_false, JSValue.assocGet, ih]

/-- After removing key `krem` and then assigning key `kset` on an object,
`kset` is present and `krem` is absent — the shape of both start/resume
transactions. -/
theorem hasKey_removeThenSet (krem kset : String) (hne : kset ≠ krem)
    (v : JSValue) (l : List (String × JSValue)) :
    JSValue.hasKey kset
        (JSValue.objSet kset v (JSValue.pathRemove [krem] (.obj l)).1) = true ∧
    JSValue.hasKey krem
        (JSValue.objSet kset v (JSValue.pathRemove [krem] (.obj l)).1) = false := by
  have hrem : ∃ l1, (JSValue.pathRemove [krem] (.obj l)).1 = .obj l1 ∧
      JSValue.assocGet krem l1 = none := by
    by_cases hp : (JSValue.assocGet krem l).isSome
    · exact ⟨l.filter (fun p => p.1 ≠ krem),
        by simp [JSValue.pathRemove, hp], assocGet_filterNe krem l⟩
    · refine ⟨l, by simp [JSValue.pathRemove, hp], ?_⟩
      exact Option.not_isSome_iff_eq_none.mp hp
  obtain ⟨l1, hl1, habs⟩ := hrem
  rw [hl1]
  constructor
  · simp [JSValue.objSet, JSValue.hasKey, assocGet_assocSet_self]
  · simp [JSValue.objSet, JSValue.hasKey,
      assocGet_assocSet_ne krem kset hne v l1, habs]

/-- A document satisfying the mutual-exclusion invariant is an object. -/
theorem exactlyOne_isObj (doc : JSValue)
    (h : exactlyOneStartResume doc = true) :
    ∃ l, doc = JSValue.obj l := by
  cases doc with
  | obj l => exact ⟨l, rfl⟩
  | null => simp [exactlyOneStartResume, JSValue.hasKey] at h
  | bool b => simp [exactlyOneStartResume, JSValue.hasKey] at h
  | num q => simp [exactlyOneStartResume, JSValue.hasKey] at h
  | str s => simp [exactlyOneStartResume, JSValue.hasKey] at h
  | arr l => simp [exactlyOneStartResume, JSValue.hasKey] at h

/-- One start/resume command on an object document yields an invariant-
satisfying document and emits exactly that document as its only
notification. -/
theorem applySRCmd_step (c : SRCmd) (l : List (String × JSValue)) :
    exactlyOneStartResume (applySRCmd c (.obj l)).doc = true ∧
    (applySRCmd c (.obj l)).notes = [(applySRCmd c (.obj l)).doc] := by
  cases c with
  | setStart tok =>
      have h := hasKey_removeThenSet "resume_offset" "start" (by decide)
        (.str tok) l
      refine ⟨?_, rfl⟩
      simp only [applySRCmd, setStartCmd, exactlyOneStartResume]
      simp [h.1, h.2]
  | setResume s =>
      have h := hasKey_removeThenSet "start" "resume_offset" (by decide)
        (.str s) l
      refine ⟨?_, rfl⟩
      simp only [applySRCmd, setResumeOffsetCmd, exactlyOneStartResume]
      simp [h.1, h.2]

/-!
## Claims
-/

/-- C1.  For every sequence of `!set start` / `!set resume_offset` commands
applied to a document satisfying the initialization invariant (as the
initialized `DEFAULT_STATE` does), after each command the document has
exactly one of the keys `start` and `resume_offset`, and every change
notification an observer receives is a snapshot with exactly one of the two
keys. -/
theorem srCmds_mutual_exclusion (cmds : List SRCmd) (doc : JSValue)
    (h : exactlyOneStartResume doc = true) :
    exactlyOneStartResume (applySRCmds cmds doc).1 = true ∧
    (∀ d ∈ (applySRCmds cmds doc).2.2, exactlyOneStartResume d = true) ∧
    (∀ d ∈ (applySRCmds cmds doc).2.1, exactlyOneStartResume d = true) := by
  induction cmds generalizing doc with
  | nil => exact ⟨h, by simp [applySRCmds], by simp [applySRCmds]⟩
  | cons c cs ih =>
      obtain ⟨l, rfl⟩ := exactlyOne_isObj doc h
      have step := applySRCmd_step c l
      have ihr := ih (applySRCmd c (.obj l)).doc step.1
      refine ⟨?_, ?_, ?_⟩
      · simpa [applySRCmds] using ihr.1
      · intro d hd
        simp only [applySRCmds, List.mem_cons] at hd
        rcases hd with rfl | hd
        · exact step.1
        · exact ihr.2.1 d hd
      · intro d hd
        simp only [applySRCmds, step.2, List.mem_append,
          List.mem_singleton] at hd
        rcases hd with rfl | hd
        · exact step.1
        · exact ihr.2.2 d hd

/-- C2.  The guard on source line 192 is inverted: it sends the
`invalid filter type` rejection exactly when the key IS one of
`FILTER_KEYS`.  Evaluating the handler at the failing input
`!filters clear device_types` on the default document: the command removes
nothing, emits nothing, and answers `invalid filter type device_types`,
where the claim (and spec section 6) says `filters[0].device_types` is
removed. -/
theorem filtersClear_knownKey_rejected :
    filtersClearCmd "device_types" DEFAULT_STATE =
      .ok ⟨DEFAULT_STATE, [], ["😞 invalid filter type device_types"]⟩ ∧
    (JSValue.pathGet ["filters", "0", "device_types"] DEFAULT_STATE).isSome
      = true ∧
    filtersClearCmd "notifications" DEFAULT_STATE =
      .ok ⟨DEFAULT_STATE, [], ["😞 invalid filter type notifications"]⟩ ∧
    filtersClearCmd "devices" DEFAULT_STATE =
      .ok ⟨DEFAULT_STATE, [], ["😞 invalid filter type devices"]⟩ ∧
    filtersClearCmd "types" DEFAULT_STATE =
      .ok ⟨DEFAULT_STATE, [], ["😞 invalid filter type types"]⟩ ∧
    filtersClearCmd "latency" DEFAULT_STATE =
      .ok ⟨DEFAULT_STATE, [], ["😞 invalid filter type latency"]⟩ :=
  ⟨rfl, by decide, rfl, rfl, rfl, rfl⟩

/-! Shared evaluations of the sample-command capture and its numeric
value. -/

theorem sampleCapture_vals :
    sampleCapture "0" = "0" ∧ sampleCapture "1" = "1" ∧
    sampleCapture "1.01" = "1.01" ∧ sampleCapture "-0.01" = "" := by
  refine ⟨by decide, by decide, by decide, by decide⟩

theorem jsNumber_zero : jsNumber "0" = 0 := by
  show (JSValue.digitsVal ['0'] : Rat) = 0
  norm_num [JSValue.digitsVal, show '0'.toNat = 48 from rfl]

theorem jsNumber_one : jsNumber "1" = 1 := by
  show (JSValue.digitsVal ['1'] : Rat) = 1
  norm_num [JSValue.digitsVal, show '1'.toNat = 49 from rfl]

theorem jsNumber_one_oh_one : jsNumber "1.01" = 101 / 100 := by
  show (JSValue.digitsVal ['1'] : Rat) +
      (JSValue.digitsVal ['0', '1'] : Rat) / ((10 : Rat) ^ (2 : Nat)) = 101 / 100
  norm_num [JSValue.digitsVal, show '1'.toNat = 49 from rfl,
    show '0'.toNat = 48 from rfl]

theorem jsNumber_empty : jsNumber "" = 0 := by
  show (JSValue.digitsVal [] : Rat) = 0
  norm_num [JSValue.digitsVal]

theorem ratToDec_one_oh_one : ratToDec (101 / 100) = "1.01" := by
  rw [show (101 / 100 : Rat) = Rat.divInt 101 100 by
    norm_num [Rat.divInt_eq_div]]
  decide

/-- The handler body of `!set subset sample`, stated as a single `if` for
case reasoning. -/
theorem setSubsetSample_unfold (s : String) (doc : JSValue) :
    setSubsetSampleCmd s doc =
      if jsNumber (sampleCapture s) < 0 ∨ jsNumber (sampleCapture s) > 1 then
        ⟨doc, [],
          ["😞 invalid proportion value: " ++
            ratToDec (jsNumber (sampleCapture s))]⟩
      else
        ⟨JSValue.objSet "subset"
            (samplePolicy (jsNumber (sampleCapture s))) doc,
          [JSValue.objSet "subset"
            (samplePolicy (jsNumber (sampleCapture s))) doc], []⟩ := rfl

/-- C3 counterexample.  The claim says `set subset sample -0.01` rejects
with an error message and leaves `subset` unchanged.  On the code, the
pattern's group `(\d*(\.\d+)?)` captures the empty string out of `-0.01`,
`Number('')` is `0`, the range guard passes, and the command sets `subset`
to a Sample policy — no rejection message, `subset` mutated. -/
theorem sample_negative_succeeds_counterexample :
    (setSubsetSampleCmd "-0.01" DEFAULT_STATE).msgs = [] ∧
    JSValue.hasKey "subset" (setSubsetSampleCmd "-0.01" DEFAULT_STATE).doc
      = true ∧
    JSValue.hasKey "subset" DEFAULT_STATE = false ∧
    (setSubsetSampleCmd "-0.01" DEFAULT_STATE).notes.length = 1 := by
  have hc : sampleCapture "-0.01" = "" := by decide
  have hn : jsNumber (sampleCapture "-0.01") = 0 := by rw [hc, jsNumber_empty]
  have hcond : ¬ (jsNumber (sampleCapture "-0.01") < 0 ∨
      jsNumber (sampleCapture "-0.01") > 1) := by rw [hn]; norm_num
  have hres : setSubsetSampleCmd "-0.01" DEFAULT_STATE =
      ⟨JSValue.objSet "subset" (samplePolicy 0) DEFAULT_STATE,
       [JSValue.objSet "subset" (samplePolicy 0) DEFAULT_STATE], []⟩ := by
    rw [setSubsetSample_unfold, if_neg hcond, hn]
  refine ⟨by rw [hres], ?_, by decide, by rw [hres]; rfl⟩
  rw [hres]
  simp [DEFAULT_STATE, JSValue.objSet, JSValue.hasKey, JSValue.assocSet,
    JSValue.assocGet]

/-- C3 as amended.  `set subset sample 0` and `set subset sample 1` set
`subset` to the Sample policy with that proportion; `set subset sample
1.01` rejects with the error message and leaves the document untouched; the
handler accepts a captured proportion `p` exactly when `0 ≤ p ≤ 1`; but
`set subset sample -0.01` is captured as the empty numeral, converts to
proportion `0`, and succeeds, setting `subset` to Sample `0`. -/
theorem setSubsetSample_boundary (l : List (String × JSValue)) :
    (setSubsetSampleCmd "0" (.obj l) =
      ⟨JSValue.objSet "subset" (samplePolicy 0) (.obj l),
       [JSValue.objSet "subset" (samplePolicy 0) (.obj l)], []⟩) ∧
    (setSubsetSampleCmd "1" (.obj l) =
      ⟨JSValue.objSet "subset" (samplePolicy 1) (.obj l),
       [JSValue.objSet "subset" (samplePolicy 1) (.obj l)], []⟩) ∧
    (setSubsetSampleCmd "1.01" (.obj l) =
      ⟨.obj l, [], ["😞 invalid proportion value: 1.01"]⟩) ∧
    (setSubsetSampleCmd "-0.01" (.obj l) =
      ⟨JSValue.objSet "subset" (samplePolicy 0) (.obj l),
       [JSValue.objSet "subset" (samplePolicy 0) (.obj l)], []⟩) ∧
    (∀ s : String, (setSubsetSampleCmd s (.obj l)).msgs = [] ↔
      0 ≤ jsNumber (sampleCapture s) ∧ jsNumber (sampleCapture s) ≤ 1) := by
  have h0 : jsNumber (sampleCapture "0") = 0 := by
    rw [sampleCapture_vals.1, jsNumber_zero]
  have h1 : jsNumber (sampleCapture "1") = 1 := by
    rw [sampleCapture_vals.2.1, jsNumber_one]
  have h101 : jsNumber (sampleCapture "1.01") = 101 / 100 := by
    rw [sampleCapture_vals.2.2.1, jsNumber_one_oh_one]
  have hneg : jsNumber (sampleCapture "-0.01") = 0 := by
    rw [sampleCapture_vals.2.2.2, jsNumber_empty]
  refine ⟨?_, ?_, ?_, ?_, ?_⟩
  · rw [setSubsetSample_unfold, if_neg (by rw [h0]; norm_num), h0]
  · rw [setSubsetSample_unfold, if_neg (by rw [h1]; norm_num), h1]
  · rw [setSubsetSample_unfold, if_pos (by rw [h101]; norm_num), h101,
      ratToDec_one_oh_one]
    congr 1
  · rw [setSubsetSample_unfold, if_neg (by rw [hneg]; norm_num), hneg]
  · intro s
    by_cases hcond : jsNumber (sampleCapture s) < 0 ∨
        jsNumber (sampleCapture s) > 1
    · rw [setSubsetSample_unfold, if_pos hcond]
      simp only [List.cons_ne_self, false_iff, not_and]
      intro hin
      rcases hcond with hlt | hgt
      · exact absurd hlt (not_lt.mpr hin)
      · exact fun hle => absurd hgt (not_lt.mpr hle)
    · rw [setSubsetSample_unfold, if_neg hcond]
      push_neg at hcond
      exact ⟨fun _ => ⟨hcond.1, hcond.2⟩, fun _ => rfl⟩

/-- C8.  The rejection branch of `!filters clear` (source lines 199-207) is
claimed never to throw, in particular to complete when the document lacks
`filters.0`.  On the empty document `{}` (installable via `!set current`),
`!filters clear foo` reaches `Object.keys(state.get('filters.0'))` with
`state.get` returning `undefined`, and `Object.keys(undefined)` throws a
`TypeError` instead of completing; with `filters.0` present the same
command does complete with the informational listing. -/
theorem filtersClear_rejection_throws :
    filtersClearCmd "foo" (.obj []) =
      .error "TypeError: Cannot convert undefined or null to object" ∧
    filtersClearCmd "foo" DEFAULT_STATE =
      .ok ⟨DEFAULT_STATE, [],
        ["😞 no filters defined for foo. available filters: device_types, types"]⟩ :=
  ⟨rfl, rfl⟩

/-- Single-key path resolution on an object is association lookup. -/
theorem pathGet_single_obj (k : String) (l : List (String × JSValue)) :
    JSValue.pathGet [k] (.obj l) = JSValue.assocGet k l := by
  cases h : JSValue.assocGet k l <;>
    simp [JSValue.pathGet, JSValue.segGet, h]

/-- Removing a single top-level key from an object yields an object in
which that key is absent. -/
theorem pathRemove_single_obj (k : String) (l : List (String × JSValue)) :
    ∃ l1, (JSValue.pathRemove [k] (.obj l)).1 = .obj l1 ∧
      JSValue.assocGet k l1 = none := by
  by_cases hp : (JSValue.assocGet k l).isSome
  · exact ⟨l.filter (fun p => p.1 ≠ k),
      by simp [JSValue.pathRemove, hp], assocGet_filterNe k l⟩
  · exact ⟨l, by simp [JSValue.pathRemove, hp],
      Option.not_isSome_iff_eq_none.mp hp⟩

/-- Whether an optional looked-up value is a JS number. -/
def isNumValue : Option JSValue → Bool
  | some (.num _) => true
  | _ => false

/-- C5 counterexample.  The claim says `!set resume_offset 500` sets
`resume_offset` to the integer 500 (a numeric value); on the code the
handler stores `res.match[1]`, the captured digit string, so the document
holds the string `"500"` and not a number. -/
theorem resumeOffset_stores_string_counterexample :
    JSValue.pathGet ["resume_offset"]
        (setResumeOffsetCmd "500" DEFAULT_STATE).doc = some (.str "500") ∧
    isNumValue (JSValue.pathGet ["resume_offset"]
        (setResumeOffsetCmd "500" DEFAULT_STATE).doc) = false :=
  ⟨rfl, rfl⟩

/-- C5 as amended.  For every digit-string argument, `!set resume_offset`
performs one transaction that removes `start` and sets `resume_offset` to
the captured digit string (a string value), emitting a single change
notification (the final snapshot) and no chat message. -/
theorem resumeOffset_transaction (s : String) (l : List (String × JSValue)) :
    JSValue.hasKey "start" (setResumeOffsetCmd s (.obj l)).doc = false ∧
    JSValue.pathGet ["resume_offset"] (setResumeOffsetCmd s (.obj l)).doc
      = some (.str s) ∧
    (setResumeOffsetCmd s (.obj l)).notes
      = [(setResumeOffsetCmd s (.obj l)).doc] ∧
    (setResumeOffsetCmd s (.obj l)).msgs = [] := by
  obtain ⟨l1, h1, habs⟩ := pathRemove_single_obj "start" l
  refine ⟨?_, ?_, rfl, rfl⟩
  · simp only [setResumeOffsetCmd, h1, JSValue.objSet]
    simp [JSValue.hasKey,
      assocGet_assocSet_ne "start" "resume_offset" (by decide), habs]
  · simp only [setResumeOffsetCmd, h1, JSValue.objSet]
    rw [pathGet_single_obj, assocGet_assocSet_self]

/-- Witness for C5 as amended, at the concrete argument `500` on the
default document. -/
theorem resumeOffset_transaction_witness :
    JSValue.hasKey "start"
      (setResumeOffsetCmd "500"
        (.obj [("start", JSValue.str "LATEST")])).doc = false ∧
    JSValue.pathGet ["resume_offset"]
      (setResumeOffsetCmd "500"
        (.obj [("start", JSValue.str "LATEST")])).doc
      = some (.str "500") ∧
    (setResumeOffsetCmd "500"
        (.obj [("start", JSValue.str "LATEST")])).notes
      = [(setResumeOffsetCmd "500"
          (.obj [("start", JSValue.str "LATEST")])).doc] ∧
    (setResumeOffsetCmd "500"
        (.obj [("start", JSValue.str "LATEST")])).msgs = [] :=
  resumeOffset_transaction "500" [("start", JSValue.str "LATEST")]

/-- C7.  `set subset partition 1 1` sets `subset` to the Partition policy
with count 1, selection 1; `3 4` rejects because selection exceeds count;
`0 0` rejects because count is less than 1; each rejection leaves the
document untouched and sends only the message; acceptance holds exactly
when `count ≥ 1` and `selection ≤ count`. -/
theorem setSubsetPartition_boundary (l : List (String × JSValue)) :
    (setSubsetPartitionCmd 1 1 (.obj l) =
      ⟨JSValue.objSet "subset" (partitionPolicy 1 1) (.obj l),
       [JSValue.objSet "subset" (partitionPolicy 1 1) (.obj l)], []⟩) ∧
    (setSubsetPartitionCmd 3 4 (.obj l) =
      ⟨.obj l, [], ["😞 selection cannot be larger than count"]⟩) ∧
    (setSubsetPartitionCmd 0 0 (.obj l) =
      ⟨.obj l, [], ["😞 count cannot be less than 1"]⟩) ∧
    (∀ count selection : Nat,
      (setSubsetPartitionCmd count selection (.obj l)).msgs = [] ↔
        1 ≤ count ∧ selection ≤ count) := by
  refine ⟨by simp [setSubsetPartitionCmd], by simp [setSubsetPartitionCmd],
    by simp [setSubsetPartitionCmd], ?_⟩
  intro count selection
  unfold setSubsetPartitionCmd
  split_ifs with hc hs <;> simp <;> omega

/-- C9.  When `JSON.parse` fails on the payload of `!set current`, the
handler reports the parser's message to the requester, leaves the document
identical, and emits no change notification. -/
theorem setCurrent_parse_error (e : String) (doc : JSValue) :
    setCurrentCmd (.error e) doc =
      ⟨doc, [], ["😞 error parsing JSON: " ++ e]⟩ := rfl

/-- A document with BOTH `start` and `resume_offset` present, violating the
stated mutual-exclusion invariant. -/
def badBothDoc : JSValue :=
  .obj [("start", .str "LATEST"), ("resume_offset", .str "500")]

/-- C10.  A successfully parsed `!set current` payload replaces the entire
document with the parsed value, with one change notification and no domain
validation; in particular the invariant-violating `badBothDoc` is installed
verbatim over the default document. -/
theorem setCurrent_no_validation :
    (∀ (d doc : JSValue), setCurrentCmd (.ok d) doc = ⟨d, [d], []⟩) ∧
    (setCurrentCmd (.ok badBothDoc) DEFAULT_STATE).doc = badBothDoc ∧
    exactlyOneStartResume badBothDoc = false :=
  ⟨fun _ _ => rfl, rfl, by decide⟩

/-- The filter-then-re-lookup-and-map pipeline of `postToChannel` equals one
`filterMap` that keeps exactly the resolving paths. -/
theorem filter_map_renderPath (data : JSValue) (output : List String) :
    (output.filter (fun id => (dotLookup id data).isSome)).map
        (renderPath data) =
      output.filterMap (fun id =>
        (dotLookup id data).map (fun v => id ++ ": " ++ renderValue v)) := by
  induction output with
  | nil => rfl
  | cons a t ih => cases h : dotLookup a data <;> simp [renderPath, h, ih]

/-- C4.  For every record and selector, the projection engine emits exactly
one line; the line is the comma-separated join of `path: value` pairs over
exactly those selector paths that resolve in the record (absent paths are
skipped), where composite values are rendered by JSON serialization and
scalars by their string form; and the empty selector still emits one
(empty) line. -/
theorem postToChannel_projection (output : List String) (data : JSValue) :
    postToChannel output data =
      [String.intercalate ", "
        (output.filterMap (fun id =>
          (dotLookup id data).map (fun v =>
            id ++ ": " ++
              (if isCompositeJS v then jsonStringify v
               else scalarString v))))] ∧
    (postToChannel output data).length = 1 ∧
    postToChannel [] data = [""] := by
  refine ⟨?_, rfl, rfl⟩
  simp only [postToChannel, filter_map_renderPath, renderValue]

/-- The `currentFilters` value (source line 228) resolved on a present array, and the
rejection branches of `!filters add` / `!filters remove`, stated as one
unfolding for case reasoning. -/
theorem filtersAddRemove_validated_unfold (op filterType filter : String)
    (allowed : List String) (doc : JSValue)
    (hkey : FILTERS_allowed filterType = some allowed)
    (hval : allowed.contains filter = true) :
    filtersAddRemoveCmd op filterType filter doc =
      (let currentFilters := currentFiltersOf filterType doc
       if op = "add" then
         if hasStr currentFilters filter then
           ⟨doc, [],
             ["😞 " ++ filterType ++ " filter already includes " ++ filter]⟩
         else
           let d2 := JSValue.pathSet ["filters", "0", filterType]
             (.arr (currentFilters ++ [.str filter])) doc
           ⟨d2, [d2], []⟩
       else if op = "remove" then
         if ¬ hasStr currentFilters filter then
           ⟨doc, [],
             ["😞 " ++ filterType ++ " filter does not include " ++ filter]⟩
         else
           let kept := currentFilters.filter
             (fun v => match v with | .str t => t ≠ filter | _ => true)
           let d2 := JSValue.pathSet ["filters", "0", filterType]
             (.arr kept) doc
           ⟨d2, [d2], []⟩
       else ⟨doc, [], []⟩) := by
  unfold filtersAddRemoveCmd
  rw [hkey]
  simp only [Option.isNone_some, if_false, Option.getD_some, hval]
  simp

/-- C6.  For a validated filter key and a legal value: `!filters add` with
the value already present in `filters[0][key]` returns the document
unchanged, emits no notification, and sends the duplicate rejection;
`!filters remove` with the value absent likewise returns the document
unchanged, emits nothing, and sends the not-included rejection. -/
theorem filtersAddRemove_idempotent_rejection
    (filterType filter : String) (allowed : List String) (doc : JSValue)
    (hkey : FILTERS_allowed filterType = some allowed)
    (hval : allowed.contains filter = true) :
    (hasStr (currentFiltersOf filterType doc) filter = true →
      filtersAddRemoveCmd "add" filterType filter doc =
        ⟨doc, [],
          ["😞 " ++ filterType ++ " filter already includes " ++ filter]⟩) ∧
    (hasStr (currentFiltersOf filterType doc) filter = false →
      filtersAddRemoveCmd "remove" filterType filter doc =
        ⟨doc, [],
          ["😞 " ++ filterType ++ " filter does not include " ++ filter]⟩) := by
  constructor
  · intro hin
    rw [filtersAddRemove_validated_unfold "add" filterType filter allowed doc
      hkey hval]
    simp [hin]
  · intro hnin
    rw [filtersAddRemove_validated_unfold "remove" filterType filter allowed
      doc hkey hval]
    simp [hnin]

/-- Witness for C6 at concrete inputs: `!filters add device_types ios` on
the default document (where `ios` is already present), and `!filters remove
types PUSH_BODY` on a document whose `types` filter array is empty (the
value is legal for the key but absent). -/
theorem filtersAddRemove_idempotent_rejection_witness :
    FILTERS_allowed "device_types" = some DEVICE_TYPES ∧
    DEVICE_TYPES.contains "ios" = true ∧
    hasStr (currentFiltersOf "device_types" DEFAULT_STATE) "ios" = true ∧
    filtersAddRemoveCmd "add" "device_types" "ios" DEFAULT_STATE =
      ⟨DEFAULT_STATE, [],
        ["😞 device_types filter already includes ios"]⟩ ∧
    hasStr (currentFiltersOf "types"
      (.obj [("filters", .arr [.obj [("types", .arr [])]])])) "PUSH_BODY"
      = false ∧
    filtersAddRemoveCmd "remove" "types" "PUSH_BODY"
      (.obj [("filters", .arr [.obj [("types", .arr [])]])]) =
      ⟨.obj [("filters", .arr [.obj [("types", .arr [])]])], [],
        ["😞 types filter does not include PUSH_BODY"]⟩ :=
  ⟨rfl, by decide, by decide,
   (filtersAddRemove_idempotent_rejection "device_types" "ios" DEVICE_TYPES
     DEFAULT_STATE rfl (by decide)).1 (by decide),
   by decide,
   (filtersAddRemove_idempotent_rejection "types" "PUSH_BODY" EVENT_TYPES
     (.obj [("filters", .arr [.obj [("types", .arr [])]])]) rfl
     (by decide)).2 (by decide)⟩

/-- Witness for C1 at a concrete command sequence from the default
document. -/
theorem srCmds_mutual_exclusion_witness :
    exactlyOneStartResume DEFAULT_STATE = true ∧
    (exactlyOneStartResume
        (applySRCmds [.setResume "500", .setStart "EARLIEST"] DEFAULT_STATE).1
        = true ∧
      (∀ d ∈ (applySRCmds [.setResume "500", .setStart "EARLIEST"]
          DEFAULT_STATE).2.2, exactlyOneStartResume d = true) ∧
      (∀ d ∈ (applySRCmds [.setResume "500", .setStart "EARLIEST"]
          DEFAULT_STATE).2.1, exactlyOneStartResume d = true)) :=
  ⟨by decide,
   srCmds_mutual_exclusion [.setResume "500", .setStart "EARLIEST"]
     DEFAULT_STATE (by decide)⟩

